import Mathlib

/-!
Shallow embedding of `kernel-config/main.py`, a tool that lets an operator
select Linux kernel boot parameters and writes them into the GRUB default
configuration file.  Pure string/list computations are translated directly;
the file-system and subprocess effects of `update_grub_config`,
`clear_grub_config` and `main` are modelled by explicit state passing over a
`FsState` record together with an `Env` oracle saying which external
operation fails (each such failure is an exception site in the Python code).
-/

namespace KernelConfig

/-! ### Python string primitives

`str.replace` and `str.startswith` are modelled over `String.data`
(lists of characters) so that they reduce in the kernel.  `replaceAux`
replaces leftmost non-overlapping occurrences of `pat`, exactly as Python
`str.replace` does for a non-empty pattern; the `Nat` argument counts
pattern characters still to be skipped after a match.
-/

def replaceAux (pat rep : List Char) : List Char → Nat → List Char
  | [], _ => []
  | c :: cs, 0 =>
    if pat.isPrefixOf (c :: cs) then rep ++ replaceAux pat rep cs (pat.length - 1)
    else c :: replaceAux pat rep cs 0
  | _ :: cs, k + 1 => replaceAux pat rep cs k

/-- Python `s.replace(pat, rep)`.  Every call in this program uses the fixed
non-empty pattern `"{CORES}"`, so the empty-pattern guard is never taken. -/
def pyReplace (s pat rep : String) : String :=
  if pat = "" then s else ⟨replaceAux pat.data rep.data s.data 0⟩

/-- Python `s.startswith(pre)`. -/
def pyStartsWith (s pre : String) : Bool := pre.data.isPrefixOf s.data

/-! ### Parameter Catalog (`KERNEL_PARAMS`, `PARAM_ORDER`) -/

structure ParamInfo where
  param : String
  desc : String
  info : String
deriving DecidableEq, Repr

def KERNEL_PARAMS : List (String × ParamInfo) := [
  ("isolcpus",
    ⟨"isolcpus=\x7bCORES\x7d",
     "Isolate CPUs from scheduler",
     "Essential for RT workloads. Prevents the scheduler from placing tasks on isolated cores."⟩),
  ("nohz_full",
    ⟨"nohz_full=\x7bCORES\x7d",
     "Disable timer ticks on isolated cores",
     "Reduces interrupts by disabling periodic timer ticks on specified cores."⟩),
  ("rcu_nocbs",
    ⟨"rcu_nocbs=\x7bCORES\x7d",
     "Move RCU callbacks off isolated cores",
     "Reduces CPU overhead by moving RCU grace period handling to other cores."⟩),
  ("housekeeping",
    ⟨"housekeeping=cpus:0",
     "Keep housekeeping tasks on CPU 0",
     "Recommended with isolation. Confines kernel housekeeping to specific cores."⟩),
  ("intel_pstate",
    ⟨"intel_pstate=disable",
     "Disable Intel P-State driver",
     "More predictable performance. Prevents CPU frequency scaling by Intel driver."⟩),
  ("nosmt",
    ⟨"nosmt",
     "Disable hyperthreading",
     "Better cache locality. Disables simultaneous multithreading for more predictable performance."⟩),
  ("intel_idle_cstate",
    ⟨"intel_idle.max_cstate=0",
     "Disable Intel idle C-states",
     "Lowest latency. Prevents CPU from entering power-saving sleep states."⟩),
  ("processor_cstate",
    ⟨"processor.max_cstate=0",
     "Disable processor C-states",
     "Prevents CPU sleep. Keeps processor in highest performance state at all times."⟩),
  ("mitigations",
    ⟨"mitigations=off",
     "Disable security mitigations",
     "Maximum performance (less secure). Disables Spectre/Meltdown mitigations for speed."⟩),
  ("intel_iommu",
    ⟨"intel_iommu=off",
     "Disable Intel IOMMU",
     "Reduces DMA overhead. May improve performance but reduces security isolation."⟩),
  ("iommu",
    ⟨"iommu=off",
     "Disable generic IOMMU",
     "Reduces DMA overhead. Complements intel_iommu=off for maximum DMA performance."⟩)]

def PARAM_ORDER : List String :=
  ["isolcpus", "nohz_full", "rcu_nocbs", "housekeeping", "intel_pstate",
   "nosmt", "intel_idle_cstate", "processor_cstate", "mitigations",
   "intel_iommu", "iommu"]

/-- `KERNEL_PARAMS[key]["param"]`.  Every key the program looks up is a
member of `PARAM_ORDER`, on which the lookup always succeeds, so the
default is unreachable. -/
def paramTemplate (key : String) : String :=
  ((List.lookup key KERNEL_PARAMS).map ParamInfo.param).getD ""

/-! ### Selection Menu state (`KernelConfigMenu`)

`selected` is the dict `{key: bool}`; it is total on `String` but only keys
of `PARAM_ORDER` are ever read or written.  `current` and `offset` are
Python ints, embedded as `Int`.
-/

structure MenuState where
  core_range : String
  selected : String → Bool
  current : Int
  offset : Int

/-- `KernelConfigMenu.__init__`: all parameters selected, focus and scroll
offset at 0. -/
def menuInit (core_range : String) : MenuState :=
  { core_range := core_range, selected := fun _ => true, current := 0, offset := 0 }

/-- `KernelConfigMenu.get_selected_params`. -/
def get_selected_params (st : MenuState) : String :=
  String.intercalate " "
    (PARAM_ORDER.foldl
      (fun params key =>
        if st.selected key then
          params ++ [pyReplace (paramTemplate key) "\x7bCORES\x7d" st.core_range]
        else params)
      [])

/-- The keyboard inputs distinguished by `handle_input`:
arrow up, arrow down, space, enter (`'\n'` or `KEY_ENTER`),
`'q'`/`'Q'`, and any other key. -/
inductive MenuKey
  | up
  | down
  | space
  | enter
  | quitKey
  | other
deriving DecidableEq, Repr

/-- One iteration of the `handle_input` loop body for one key press.
`menu_height` is `stdscr` height minus 6, read only on arrow-down.
The second component is `none` when the loop continues, `some b` when
`handle_input` returns `b`. -/
def handle_key (st : MenuState) (k : MenuKey) (menu_height : Int) :
    MenuState × Option Bool :=
  match k with
  | .up =>
    let c := max 0 (st.current - 1)
    let off := if c < st.offset then c else st.offset
    ({ st with current := c, offset := off }, none)
  | .down =>
    let c := min (PARAM_ORDER.length : Int) (st.current + 1)
    let off := if c ≥ st.offset + menu_height then c - menu_height + 1 else st.offset
    ({ st with current := c, offset := off }, none)
  | .space =>
    if st.current < (PARAM_ORDER.length : Int) then
      let param_key := PARAM_ORDER.getD st.current.toNat ""
      ({ st with selected := fun key =>
          if key = param_key then ! st.selected key else st.selected key }, none)
    else (st, none)
  | .enter =>
    if st.current = (PARAM_ORDER.length : Int) then (st, some true) else (st, none)
  | .quitKey => (st, some false)
  | .other => (st, none)

/-! ### File-system model

`FsState` is the observable on-disk state: the contents of
`/etc/default/grub` as the ordered line list `readlines` yields (each line
keeps its trailing newline), and the contents of `/etc/default/grub.backup`
(`none` when absent).  `Env` says which external operation raises an
exception: the `cp` subprocess, the file read, the file write, or the
`update-grub` subprocess.
-/

structure FsState where
  grub : List String
  backup : Option (List String)
deriving DecidableEq, Repr

structure Env where
  cp_fails : Bool
  read_fails : Bool
  write_fails : Bool
  update_grub_fails : Bool
deriving DecidableEq, Repr

def envOk : Env := ⟨false, false, false, false⟩

/-- Result of a Writer/Clearer call: the returned boolean, the file system
afterwards, whether the `update-grub` subprocess was invoked, and the lines
printed by the function itself (the `except` branch). -/
structure GrubResult where
  ok : Bool
  fs : FsState
  regen_invoked : Bool
  printed : List String
deriving DecidableEq, Repr

/-- The line-list transformation inside `update_grub_config` (lines
196-205): replace the first line starting with
`GRUB_CMDLINE_LINUX_DEFAULT=`, else append a new assignment line. -/
def update_lines (lines : List String) (params : String) : List String :=
  match lines with
  | [] => ["GRUB_CMDLINE_LINUX_DEFAULT=\"" ++ params ++ "\"\n"]
  | l :: ls =>
    if pyStartsWith l "GRUB_CMDLINE_LINUX_DEFAULT=" then
      ("GRUB_CMDLINE_LINUX_DEFAULT=\"" ++ params ++ "\"\n") :: ls
    else l :: update_lines ls params

/-- The line-list transformation inside `clear_grub_config` (lines
227-231): replace the first line starting with
`GRUB_CMDLINE_LINUX_DEFAULT=` by an empty assignment; note that, unlike
`update_grub_config`, no line is appended when none matches. -/
def clear_lines (lines : List String) : List String :=
  match lines with
  | [] => []
  | l :: ls =>
    if pyStartsWith l "GRUB_CMDLINE_LINUX_DEFAULT=" then
      "GRUB_CMDLINE_LINUX_DEFAULT=\"\"\n" :: ls
    else l :: clear_lines ls

/-- `update_grub_config(params)`.  Each `if env...` branch is the
corresponding Python statement raising; the `except` clause prints one
error line naming the cause and returns `False`. -/
def update_grub_config (env : Env) (fs : FsState) (params : String) : GrubResult :=
  if env.cp_fails then
    ⟨false, fs, false, ["Error updating GRUB configuration: cp failed"]⟩
  else
    let fs1 : FsState := { fs with backup := some fs.grub }
    if env.read_fails then
      ⟨false, fs1, false, ["Error updating GRUB configuration: read failed"]⟩
    else
      let lines := update_lines fs1.grub params
      if env.write_fails then
        ⟨false, fs1, false, ["Error updating GRUB configuration: write failed"]⟩
      else
        let fs2 : FsState := { fs1 with grub := lines }
        if env.update_grub_fails then
          ⟨false, fs2, true, ["Error updating GRUB configuration: update-grub failed"]⟩
        else
          ⟨true, fs2, true, []⟩

/-- `clear_grub_config()`.  No backup step exists in the source; otherwise
the structure mirrors `update_grub_config` with `clear_lines`. -/
def clear_grub_config (env : Env) (fs : FsState) : GrubResult :=
  if env.read_fails then
    ⟨false, fs, false, ["Error clearing GRUB configuration: read failed"]⟩
  else
    let lines := clear_lines fs.grub
    if env.write_fails then
      ⟨false, fs, false, ["Error clearing GRUB configuration: write failed"]⟩
    else
      let fs1 : FsState := { fs with grub := lines }
      if env.update_grub_fails then
        ⟨false, fs1, true, ["Error clearing GRUB configuration: update-grub failed"]⟩
      else
        ⟨true, fs1, true, []⟩

/-! ### Entry point (`main`) -/

/-- How the interactive menu session ends: `curses.wrapper` returns `True`
(apply), returns `False` (quit), or `KeyboardInterrupt` is raised. -/
inductive MenuOutcome
  | applied
  | cancelled
  | interrupted
deriving DecidableEq, Repr

/-- Observable result of one `main` invocation: the exit status, every line
printed (in order), the final file system, and whether the Writer/Clearer
ran. -/
structure MainResult where
  exit_code : Nat
  printed : List String
  fs : FsState
  writer_invoked : Bool
  clearer_invoked : Bool
deriving DecidableEq, Repr

/-- `main()`.  `argv` is `sys.argv` (the program name included), `euid` is
`os.geteuid()`.  The menu session and the final selection state are inputs
(`outcome`, `selected`), since they come from interactive terminal input;
`selected` is the menu's selection dict when the session ends. -/
def main (argv : List String) (euid : Nat) (env : Env) (fs : FsState)
    (outcome : MenuOutcome) (selected : String → Bool) : MainResult :=
  if argv.length < 2 then
    ⟨1, ["Usage: uv run <enable|disable> [core_range]"], fs, false, false⟩
  else if euid ≠ 0 then
    ⟨1, ["Error: This script must be run as root (use sudo)"], fs, false, false⟩
  else
    let action := argv.getD 1 ""
    let core_range := if argv.length > 2 then argv.getD 2 "" else "1-12"
    if action = "enable" then
      match outcome with
      | .interrupted =>
        ⟨0, ["\nConfiguration cancelled."], fs, false, false⟩
      | .cancelled =>
        ⟨0, ["Configuration cancelled."], fs, false, false⟩
      | .applied =>
        let menuEnd : MenuState :=
          { core_range := core_range, selected := selected, current := 0, offset := 0 }
        let selected_params := get_selected_params menuEnd
        if selected_params = "" then
          ⟨0, ["No parameters selected. Exiting."], fs, false, false⟩
        else
          let r := update_grub_config env fs selected_params
          if r.ok then
            ⟨0, ("Applying parameters: " ++ selected_params) :: r.printed ++
                ["✓ Selected kernel parameters installed. Reboot to apply."],
             r.fs, true, false⟩
          else
            ⟨1, ("Applying parameters: " ++ selected_params) :: r.printed ++
                ["✗ Failed to update kernel parameters."],
             r.fs, true, false⟩
    else if action = "disable" then
      let r := clear_grub_config env fs
      if r.ok then
        ⟨0, r.printed ++ ["✓ Kernel parameters cleared. Reboot to revert."],
         r.fs, false, true⟩
      else
        ⟨1, r.printed ++ ["✗ Failed to clear kernel parameters."],
         r.fs, false, true⟩
    else
      ⟨1, ["Error: invalid action '" ++ action ++ "' (use enable|disable)"],
       fs, false, false⟩

/-! ### Helper lemmas -/

/-- Accumulating `foldl` over a conditional append is a `filter`-`map`. -/
theorem foldl_select_eq_filter_map (p : String → Bool) (g : String → String) :
    ∀ (l : List String) (acc : List String),
      l.foldl (fun params key => if p key then params ++ [g key] else params) acc
        = acc ++ (l.filter p).map g := by
  intro l
  induction l with
  | nil => intro acc; simp
  | cons x xs ih =>
    intro acc
    by_cases h : p x <;> simp [List.foldl_cons, List.filter_cons, h, ih]

/-- C1: `get_selected_params` returns the space-joined concatenation, in
`PARAM_ORDER` order, of exactly the templates of the selected keys with the
`{CORES}` placeholder replaced by the core-range string, and nothing else;
as a pure function of the menu state it is deterministic and total (the
cursor fields do not occur on the right-hand side). -/
theorem C1_get_selected_params_spec (st : MenuState) :
    get_selected_params st =
      String.intercalate " "
        ((PARAM_ORDER.filter st.selected).map
          (fun key => pyReplace (paramTemplate key) "\x7bCORES\x7d" st.core_range)) := by
  unfold get_selected_params
  rw [foldl_select_eq_filter_map]
  simp

set_option maxRecDepth 100000 in
/-- C5: with core range `"1-12"` and all eleven catalog entries selected,
`get_selected_params` returns exactly the eleven expected tokens in catalog
order, space-separated. -/
theorem C5_full_selection_value :
    get_selected_params (menuInit "1-12") =
      "isolcpus=1-12 nohz_full=1-12 rcu_nocbs=1-12 housekeeping=cpus:0 intel_pstate=disable nosmt intel_idle.max_cstate=0 processor.max_cstate=0 mitigations=off intel_iommu=off iommu=off" := by
  decide

/-- When no line carries the assignment marker, `update_lines` appends
exactly one new assignment line. -/
theorem update_lines_append (params : String) :
    ∀ lines : List String,
      (∀ l ∈ lines, pyStartsWith l "GRUB_CMDLINE_LINUX_DEFAULT=" = false) →
      update_lines lines params
        = lines ++ ["GRUB_CMDLINE_LINUX_DEFAULT=\"" ++ params ++ "\"\n"] := by
  intro lines
  induction lines with
  | nil => intro _; simp [update_lines]
  | cons l ls ih =>
    intro h
    have hl := h l (List.mem_cons_self l ls)
    have hls := fun l2 hm => h l2 (List.mem_cons_of_mem l hm)
    simp [update_lines, hl, ih hls]

/-- `update_lines` replaces the first marked line and keeps every other
line verbatim, in order. -/
theorem update_lines_replace (params : String) :
    ∀ (pre : List String) (l : String) (post : List String),
      (∀ l2 ∈ pre, pyStartsWith l2 "GRUB_CMDLINE_LINUX_DEFAULT=" = false) →
      pyStartsWith l "GRUB_CMDLINE_LINUX_DEFAULT=" = true →
      update_lines (pre ++ l :: post) params
        = pre ++ ("GRUB_CMDLINE_LINUX_DEFAULT=\"" ++ params ++ "\"\n") :: post := by
  intro pre
  induction pre with
  | nil => intro l post _ hl; simp [update_lines, hl]
  | cons p ps ih =>
    intro l post h hl
    have hp := h p (List.mem_cons_self p ps)
    have hps := fun l2 hm => h l2 (List.mem_cons_of_mem p hm)
    simp [update_lines, hp, ih l post hps hl]

/-- When no line carries the assignment marker, `clear_lines` returns the
lines unchanged (no assignment line is appended). -/
theorem clear_lines_no_match :
    ∀ lines : List String,
      (∀ l ∈ lines, pyStartsWith l "GRUB_CMDLINE_LINUX_DEFAULT=" = false) →
      clear_lines lines = lines := by
  intro lines
  induction lines with
  | nil => intro _; simp [clear_lines]
  | cons l ls ih =>
    intro h
    have hl := h l (List.mem_cons_self l ls)
    have hls := fun l2 hm => h l2 (List.mem_cons_of_mem l hm)
    simp [clear_lines, hl, ih hls]

/-- `clear_lines` replaces the first marked line by the empty assignment
and keeps every other line verbatim, in order. -/
theorem clear_lines_replace :
    ∀ (pre : List String) (l : String) (post : List String),
      (∀ l2 ∈ pre, pyStartsWith l2 "GRUB_CMDLINE_LINUX_DEFAULT=" = false) →
      pyStartsWith l "GRUB_CMDLINE_LINUX_DEFAULT=" = true →
      clear_lines (pre ++ l :: post)
        = pre ++ "GRUB_CMDLINE_LINUX_DEFAULT=\"\"\n" :: post := by
  intro pre
  induction pre with
  | nil => intro l post _ hl; simp [clear_lines, hl]
  | cons p ps ih =>
    intro l post h hl
    have hp := h p (List.mem_cons_self p ps)
    have hps := fun l2 hm => h l2 (List.mem_cons_of_mem p hm)
    simp [clear_lines, hp, ih l post hps hl]

/-- C2: the Writer's line transformation replaces only the first line that
starts with `GRUB_CMDLINE_LINUX_DEFAULT=` by the prefix followed by the
double-quoted parameter string, keeping all other lines verbatim and in
order; with no such line it appends exactly one new assignment line; and
on a failure-free run the Writer writes back exactly this transformation
of the file it read. -/
theorem C2_writer_line_spec (fs : FsState) (params : String) :
    ((∀ l ∈ fs.grub, pyStartsWith l "GRUB_CMDLINE_LINUX_DEFAULT=" = false) →
       update_lines fs.grub params
         = fs.grub ++ ["GRUB_CMDLINE_LINUX_DEFAULT=\"" ++ params ++ "\"\n"])
  ∧ (∀ (pre : List String) (l : String) (post : List String),
       fs.grub = pre ++ l :: post →
       (∀ l2 ∈ pre, pyStartsWith l2 "GRUB_CMDLINE_LINUX_DEFAULT=" = false) →
       pyStartsWith l "GRUB_CMDLINE_LINUX_DEFAULT=" = true →
       update_lines fs.grub params
         = pre ++ ("GRUB_CMDLINE_LINUX_DEFAULT=\"" ++ params ++ "\"\n") :: post)
  ∧ (update_grub_config envOk fs params).fs.grub = update_lines fs.grub params := by
  refine ⟨fun h => update_lines_append params fs.grub h, fun pre l post he h hl => ?_, ?_⟩
  · rw [he]; exact update_lines_replace params pre l post h hl
  · simp [update_grub_config, envOk]

set_option maxRecDepth 10000 in
/-- Witness for C2 at a concrete three-line file whose middle line is the
assignment line. -/
theorem C2_writer_line_spec_witness :
    update_lines ["# GRUB defaults\n",
                  "GRUB_CMDLINE_LINUX_DEFAULT=\"quiet splash\"\n",
                  "GRUB_TIMEOUT=5\n"] "isolcpus=1-12"
      = ["# GRUB defaults\n",
         "GRUB_CMDLINE_LINUX_DEFAULT=\"isolcpus=1-12\"\n",
         "GRUB_TIMEOUT=5\n"] :=
  (C2_writer_line_spec
      ⟨["# GRUB defaults\n", "GRUB_CMDLINE_LINUX_DEFAULT=\"quiet splash\"\n",
        "GRUB_TIMEOUT=5\n"], none⟩ "isolcpus=1-12").2.1
    ["# GRUB defaults\n"] "GRUB_CMDLINE_LINUX_DEFAULT=\"quiet splash\"\n"
    ["GRUB_TIMEOUT=5\n"] rfl (by decide) (by decide)

set_option maxRecDepth 10000 in
/-- Counterexample for C3: on a file with no assignment line the Clearer
leaves the line list unchanged — it does not append an empty assignment
line, contrary to the claim. -/
theorem C3_counterexample :
    clear_lines ["# GRUB defaults\n"] = ["# GRUB defaults\n"]
  ∧ (clear_grub_config envOk ⟨["# GRUB defaults\n"], none⟩).fs.grub
      = ["# GRUB defaults\n"]
  ∧ clear_lines ["# GRUB defaults\n"]
      ≠ ["# GRUB defaults\n", "GRUB_CMDLINE_LINUX_DEFAULT=\"\"\n"] := by
  refine ⟨by decide, by decide, by decide⟩

/-- C3 (amended): the Clearer replaces the first assignment line with the
prefix followed by an empty quoted string regardless of its prior value and
never alters unrelated lines; when no assignment line exists it leaves the
line list unchanged (it does not append one); it never touches the backup
file; and on a failure-free run it writes back exactly this transformation. -/
theorem C3_clearer_spec (env : Env) (fs : FsState) :
    ((∀ l ∈ fs.grub, pyStartsWith l "GRUB_CMDLINE_LINUX_DEFAULT=" = false) →
       clear_lines fs.grub = fs.grub)
  ∧ (∀ (pre : List String) (l : String) (post : List String),
       fs.grub = pre ++ l :: post →
       (∀ l2 ∈ pre, pyStartsWith l2 "GRUB_CMDLINE_LINUX_DEFAULT=" = false) →
       pyStartsWith l "GRUB_CMDLINE_LINUX_DEFAULT=" = true →
       clear_lines fs.grub = pre ++ "GRUB_CMDLINE_LINUX_DEFAULT=\"\"\n" :: post)
  ∧ (clear_grub_config env fs).fs.backup = fs.backup
  ∧ (clear_grub_config envOk fs).fs.grub = clear_lines fs.grub := by
  refine ⟨fun h => clear_lines_no_match fs.grub h, fun pre l post he h hl => ?_, ?_, ?_⟩
  · rw [he]; exact clear_lines_replace pre l post h hl
  · unfold clear_grub_config
    rcases env with ⟨c, r, w, u⟩
    cases r <;> cases w <;> cases u <;> simp
  · simp [clear_grub_config, envOk]

set_option maxRecDepth 10000 in
/-- Witness for C3 at a concrete file whose first line is an assignment
line with a non-empty prior value. -/
theorem C3_clearer_spec_witness :
    clear_lines ["GRUB_CMDLINE_LINUX_DEFAULT=\"quiet\"\n", "GRUB_TIMEOUT=5\n"]
      = ["GRUB_CMDLINE_LINUX_DEFAULT=\"\"\n", "GRUB_TIMEOUT=5\n"] :=
  (C3_clearer_spec envOk
      ⟨["GRUB_CMDLINE_LINUX_DEFAULT=\"quiet\"\n", "GRUB_TIMEOUT=5\n"], none⟩).2.1
    [] "GRUB_CMDLINE_LINUX_DEFAULT=\"quiet\"\n" ["GRUB_TIMEOUT=5\n"]
    rfl (by simp) (by decide)

/-- C4: the Writer backs the file up before any mutation.  If the `cp`
step fails the whole call is aborted: the file system is untouched, the
regeneration command is never invoked and `False` is returned with one
error message (no exception escapes).  If the `cp` step succeeds the
backup holds the pre-write contents of the file, overwriting any prior
backup, before the original is rewritten. -/
theorem C4_backup_before_mutation (env : Env) (fs : FsState) (params : String) :
    (env.cp_fails = true →
       update_grub_config env fs params
         = ⟨false, fs, false, ["Error updating GRUB configuration: cp failed"]⟩)
  ∧ (env.cp_fails = false →
       (update_grub_config env fs params).fs.backup = some fs.grub) := by
  constructor
  · intro h; simp [update_grub_config, h]
  · intro h
    unfold update_grub_config
    rcases env with ⟨c, r, w, u⟩
    simp only at h
    subst h
    cases r <;> cases w <;> cases u <;> simp

/-- Witness for C4: a failing copy step on a one-line file, and a
succeeding copy step recording the pre-write contents in the backup. -/
theorem C4_backup_before_mutation_witness :
    update_grub_config ⟨true, false, false, false⟩ ⟨["GRUB_TIMEOUT=5\n"], none⟩ "p"
      = ⟨false, ⟨["GRUB_TIMEOUT=5\n"], none⟩, false,
         ["Error updating GRUB configuration: cp failed"]⟩
  ∧ (update_grub_config ⟨false, false, false, false⟩
        ⟨["GRUB_TIMEOUT=5\n"], none⟩ "p").fs.backup = some ["GRUB_TIMEOUT=5\n"] :=
  ⟨(C4_backup_before_mutation ⟨true, false, false, false⟩
      ⟨["GRUB_TIMEOUT=5\n"], none⟩ "p").1 rfl,
   (C4_backup_before_mutation ⟨false, false, false, false⟩
      ⟨["GRUB_TIMEOUT=5\n"], none⟩ "p").2 rfl⟩

/-- C6: with every catalog entry deselected `get_selected_params` returns
the empty string, and the enable flow after confirmation then skips the
Writer entirely — the file system is untouched, exactly the informational
"No parameters selected. Exiting." line is printed, and the exit status
is 0. -/
theorem C6_empty_selection (cr : String) (cur off : Int) (argv : List String)
    (env : Env) (fs : FsState) :
    get_selected_params ⟨cr, fun _ => false, cur, off⟩ = ""
  ∧ (2 ≤ argv.length → argv.getD 1 "" = "enable" →
       main argv 0 env fs .applied (fun _ => false)
         = ⟨0, ["No parameters selected. Exiting."], fs, false, false⟩) := by
  have hempty : ∀ (cr' : String) (c o : Int),
      get_selected_params ⟨cr', fun _ => false, c, o⟩ = "" := by
    intro cr' c o
    unfold get_selected_params
    rw [foldl_select_eq_filter_map]
    simp [String.intercalate]
  refine ⟨hempty cr cur off, fun hlen hact => ?_⟩
  have h2 : ¬ argv.length < 2 := by omega
  rw [List.getD_eq_getElem?_getD] at hact
  simp [main, h2, hact, hempty]

/-- Witness for C6 at the concrete invocation `prog enable`. -/
theorem C6_empty_selection_witness :
    main ["prog", "enable"] 0 envOk ⟨["GRUB_TIMEOUT=5\n"], none⟩ .applied (fun _ => false)
      = ⟨0, ["No parameters selected. Exiting."], ⟨["GRUB_TIMEOUT=5\n"], none⟩,
         false, false⟩ :=
  (C6_empty_selection "1-12" 0 0 ["prog", "enable"] envOk
      ⟨["GRUB_TIMEOUT=5\n"], none⟩).2 (by decide) rfl

/-- C7: with fewer than two `sys.argv` entries `main` prints the usage line
and exits 1 before the privilege gate runs (the outcome does not depend on
`euid`); otherwise, if the effective UID is not 0, `main` prints the root
error and exits 1 before any menu, file or subprocess action, for every
action string — the file system is untouched and neither the Writer nor
the Clearer is invoked. -/
theorem C7_privilege_gate (argv : List String) (euid : Nat) (env : Env)
    (fs : FsState) (oc : MenuOutcome) (sel : String → Bool) :
    (argv.length < 2 →
       main argv euid env fs oc sel
         = ⟨1, ["Usage: uv run <enable|disable> [core_range]"], fs, false, false⟩)
  ∧ (2 ≤ argv.length → euid ≠ 0 →
       main argv euid env fs oc sel
         = ⟨1, ["Error: This script must be run as root (use sudo)"], fs, false, false⟩) := by
  constructor
  · intro h; simp [main, h]
  · intro hlen hne
    have h2 : ¬ argv.length < 2 := by omega
    simp [main, h2, hne]

/-- Witness for C7: missing action argument (with a non-root UID), and a
non-root `enable` invocation. -/
theorem C7_privilege_gate_witness :
    main ["prog"] 1000 envOk ⟨[], none⟩ .applied (fun _ => true)
      = ⟨1, ["Usage: uv run <enable|disable> [core_range]"], ⟨[], none⟩, false, false⟩
  ∧ main ["prog", "enable"] 1000 envOk ⟨[], none⟩ .applied (fun _ => true)
      = ⟨1, ["Error: This script must be run as root (use sudo)"], ⟨[], none⟩,
         false, false⟩ :=
  ⟨(C7_privilege_gate ["prog"] 1000 envOk ⟨[], none⟩ .applied (fun _ => true)).1
      (by decide),
   (C7_privilege_gate ["prog", "enable"] 1000 envOk ⟨[], none⟩ .applied
      (fun _ => true)).2 (by decide) (by decide)⟩

set_option maxRecDepth 10000 in
/-- C8: every failing external operation inside the Writer or Clearer is
contained at that function's boundary: the function returns `false` after
printing exactly one error line naming the cause, and returns `true` with
nothing printed otherwise (both functions are total — no exception reaches
the caller).  The Entry Point converts a reported failure into exit
status 1, for the disable path and for the enable path with a non-empty
selection. -/
theorem C8_error_containment (env : Env) (fs : FsState) (params : String) :
    ((update_grub_config env fs params).ok = false →
       ∃ cause, (update_grub_config env fs params).printed
           = ["Error updating GRUB configuration: " ++ cause])
  ∧ ((update_grub_config env fs params).ok = true →
       (update_grub_config env fs params).printed = [])
  ∧ ((clear_grub_config env fs).ok = false →
       ∃ cause, (clear_grub_config env fs).printed
           = ["Error clearing GRUB configuration: " ++ cause])
  ∧ ((clear_grub_config env fs).ok = true → (clear_grub_config env fs).printed = [])
  ∧ (∀ (argv : List String) (oc : MenuOutcome) (sel : String → Bool),
       2 ≤ argv.length → argv.getD 1 "" = "disable" →
       (clear_grub_config env fs).ok = false →
       (main argv 0 env fs oc sel).exit_code = 1)
  ∧ (∀ (prog cr : String) (sel : String → Bool),
       get_selected_params ⟨cr, sel, 0, 0⟩ ≠ "" →
       (update_grub_config env fs (get_selected_params ⟨cr, sel, 0, 0⟩)).ok = false →
       (main [prog, "enable", cr] 0 env fs .applied sel).exit_code = 1) := by
  obtain ⟨c, r, w, u⟩ := env
  refine ⟨?_, ?_, ?_, ?_, ?_, ?_⟩
  · cases c <;> cases r <;> cases w <;> cases u <;> simp [update_grub_config] <;>
      first
      | exact ⟨"cp failed", by decide⟩
      | exact ⟨"read failed", by decide⟩
      | exact ⟨"write failed", by decide⟩
      | exact ⟨"update-grub failed", by decide⟩
  · cases c <;> cases r <;> cases w <;> cases u <;> simp [update_grub_config]
  · cases r <;> cases w <;> cases u <;> simp [clear_grub_config] <;>
      first
      | exact ⟨"read failed", by decide⟩
      | exact ⟨"write failed", by decide⟩
      | exact ⟨"update-grub failed", by decide⟩
  · cases r <;> cases w <;> cases u <;> simp [clear_grub_config]
  · intro argv oc sel hlen hact hfail
    have h2 : ¬ argv.length < 2 := by omega
    rw [List.getD_eq_getElem?_getD] at hact
    simp [main, h2, hact, hfail]
  · intro prog cr sel hne hfail
    simp [main, hne, hfail]

set_option maxRecDepth 10000 in
/-- Witness for C8: a failing read on the Writer, and a failing
`update-grub` on the disable path driving the exit status to 1. -/
theorem C8_error_containment_witness :
    (∃ cause, (update_grub_config ⟨false, true, false, false⟩
        ⟨["GRUB_TIMEOUT=5\n"], none⟩ "p").printed
          = ["Error updating GRUB configuration: " ++ cause])
  ∧ (main ["prog", "disable"] 0 ⟨false, false, false, true⟩
        ⟨["GRUB_TIMEOUT=5\n"], none⟩ .applied (fun _ => true)).exit_code = 1 :=
  ⟨(C8_error_containment ⟨false, true, false, false⟩
        ⟨["GRUB_TIMEOUT=5\n"], none⟩ "p").1 rfl,
   (C8_error_containment ⟨false, false, false, true⟩
        ⟨["GRUB_TIMEOUT=5\n"], none⟩ "p").2.2.2.2.1
     ["prog", "disable"] .applied (fun _ => true) (by decide) rfl (by decide)⟩

set_option maxRecDepth 100000 in
/-- Counterexample for C9: a successful apply run (a terminal outcome)
prints two status lines — the "Applying parameters" progress line and the
success line — not exactly one. -/
theorem C9_counterexample :
    (main ["prog", "enable"] 0 envOk ⟨[], none⟩ .applied (fun _ => true)).printed.length
        = 2
  ∧ (main ["prog", "enable"] 0 envOk ⟨[], none⟩ .applied
        (fun _ => true)).printed.length ≠ 1 := by
  refine ⟨by decide, by decide⟩

/-- A succeeding Writer prints nothing of its own. -/
theorem update_printed_of_ok (env : Env) (fs : FsState) (params : String) :
    (update_grub_config env fs params).ok = true →
    (update_grub_config env fs params).printed = [] := by
  obtain ⟨c, r, w, u⟩ := env
  cases c <;> cases r <;> cases w <;> cases u <;> simp [update_grub_config]

/-- A failing Writer prints exactly one cause-naming error line. -/
theorem update_printed_of_fail (env : Env) (fs : FsState) (params : String) :
    (update_grub_config env fs params).ok = false →
    ∃ cause, (update_grub_config env fs params).printed
      = ["Error updating GRUB configuration: " ++ cause] := by
  obtain ⟨c, r, w, u⟩ := env
  cases c <;> cases r <;> cases w <;> cases u <;> simp [update_grub_config] <;>
    first
    | exact ⟨"cp failed", by decide⟩
    | exact ⟨"read failed", by decide⟩
    | exact ⟨"write failed", by decide⟩
    | exact ⟨"update-grub failed", by decide⟩

/-- A succeeding Clearer prints nothing of its own. -/
theorem clear_printed_of_ok (env : Env) (fs : FsState) :
    (clear_grub_config env fs).ok = true →
    (clear_grub_config env fs).printed = [] := by
  obtain ⟨c, r, w, u⟩ := env
  cases r <;> cases w <;> cases u <;> simp [clear_grub_config]

/-- A failing Clearer prints exactly one cause-naming error line. -/
theorem clear_printed_of_fail (env : Env) (fs : FsState) :
    (clear_grub_config env fs).ok = false →
    ∃ cause, (clear_grub_config env fs).printed
      = ["Error clearing GRUB configuration: " ++ cause] := by
  obtain ⟨c, r, w, u⟩ := env
  cases r <;> cases w <;> cases u <;> simp [clear_grub_config] <;>
    first
    | exact ⟨"read failed", by decide⟩
    | exact ⟨"write failed", by decide⟩
    | exact ⟨"update-grub failed", by decide⟩

/-- C9 (amended): every terminal outcome of `main` prints at least one
human-readable status line before exiting, but not always exactly one: an
apply run first prints the `Applying parameters` progress line, so apply
success prints exactly the 2 lines progress + success, apply failure
prints exactly the 3 lines progress + the Writer's error-cause line +
failure status, clear failure prints exactly the 2 lines the Clearer's
error-cause line + failure status, and clear success prints exactly one
line. -/
theorem C9_amended_status_line (argv : List String) (euid : Nat) (env : Env)
    (fs : FsState) (oc : MenuOutcome) (sel : String → Bool) :
    1 ≤ (main argv euid env fs oc sel).printed.length
  ∧ (∀ prog cr : String,
       get_selected_params ⟨cr, sel, 0, 0⟩ ≠ "" →
       (update_grub_config env fs (get_selected_params ⟨cr, sel, 0, 0⟩)).ok = true →
       (main [prog, "enable", cr] 0 env fs .applied sel).printed
         = ["Applying parameters: " ++ get_selected_params ⟨cr, sel, 0, 0⟩,
            "✓ Selected kernel parameters installed. Reboot to apply."])
  ∧ (∀ prog cr : String,
       get_selected_params ⟨cr, sel, 0, 0⟩ ≠ "" →
       (update_grub_config env fs (get_selected_params ⟨cr, sel, 0, 0⟩)).ok = false →
       ∃ cause,
         (main [prog, "enable", cr] 0 env fs .applied sel).printed
           = ["Applying parameters: " ++ get_selected_params ⟨cr, sel, 0, 0⟩,
              "Error updating GRUB configuration: " ++ cause,
              "✗ Failed to update kernel parameters."])
  ∧ (2 ≤ argv.length → argv.getD 1 "" = "disable" →
       (clear_grub_config env fs).ok = true →
       (main argv 0 env fs oc sel).printed
         = ["✓ Kernel parameters cleared. Reboot to revert."])
  ∧ (2 ≤ argv.length → argv.getD 1 "" = "disable" →
       (clear_grub_config env fs).ok = false →
       ∃ cause,
         (main argv 0 env fs oc sel).printed
           = ["Error clearing GRUB configuration: " ++ cause,
              "✗ Failed to clear kernel parameters."]) := by
  refine ⟨?_, ?_, ?_, ?_, ?_⟩
  · unfold main
    rcases oc <;> repeat' split <;> try simp
  · intro prog cr hne hok
    have hp := update_printed_of_ok env fs (get_selected_params ⟨cr, sel, 0, 0⟩) hok
    simp [main, hne, hok, hp]
  · intro prog cr hne hfail
    obtain ⟨cause, hp⟩ :=
      update_printed_of_fail env fs (get_selected_params ⟨cr, sel, 0, 0⟩) hfail
    exact ⟨cause, by simp [main, hne, hfail, hp]⟩
  · intro hlen hact hok
    have h2 : ¬ argv.length < 2 := by omega
    have hp := clear_printed_of_ok env fs hok
    rw [List.getD_eq_getElem?_getD] at hact
    simp [main, h2, hact, hok, hp]
  · intro hlen hact hfail
    have h2 : ¬ argv.length < 2 := by omega
    obtain ⟨cause, hp⟩ := clear_printed_of_fail env fs hfail
    rw [List.getD_eq_getElem?_getD] at hact
    exact ⟨cause, by simp [main, h2, hact, hfail, hp]⟩

set_option maxRecDepth 100000 in
/-- Witness for the amended C9 at a concrete failing apply run: the Writer
fails to read the file, and the three lines progress + cause + failure
status are printed. -/
theorem C9_amended_status_line_witness :
    ∃ cause,
      (main ["prog", "enable", "1-12"] 0 ⟨false, true, false, false⟩ ⟨[], none⟩
          .applied (fun _ => true)).printed
        = ["Applying parameters: " ++
             get_selected_params ⟨"1-12", fun _ => true, 0, 0⟩,
           "Error updating GRUB configuration: " ++ cause,
           "✗ Failed to update kernel parameters."] :=
  (C9_amended_status_line ["prog", "enable", "1-12"] 0 ⟨false, true, false, false⟩
      ⟨[], none⟩ .applied (fun _ => true)).2.2.1 "prog" "1-12"
    (by decide) (by decide)

/-- C10: invariants of the input-handling loop.  Focus starts at 0;
assuming the focus index lies in `[0, N]` (`N` = catalog size = 11), it
stays in `[0, N]` after any handled key; arrow up/down move it by exactly
one step clamped to that interval and leave the selection untouched; space
leaves the focus index untouched and, when focus is on a parameter row,
flips exactly the focused parameter's boolean; pressing space twice from
the same state restores the selection pointwise. -/
theorem C10_menu_invariants (st : MenuState) (k : MenuKey) (mh : Int)
    (h0 : 0 ≤ st.current) (hN : st.current ≤ (PARAM_ORDER.length : Int)) :
    (∀ cr, (menuInit cr).current = 0)
  ∧ (0 ≤ ((handle_key st k mh).1).current
       ∧ ((handle_key st k mh).1).current ≤ (PARAM_ORDER.length : Int))
  ∧ (k = .up → ((handle_key st k mh).1).current = max 0 (st.current - 1)
       ∧ ((handle_key st k mh).1).selected = st.selected)
  ∧ (k = .down →
       ((handle_key st k mh).1).current
           = min (PARAM_ORDER.length : Int) (st.current + 1)
       ∧ ((handle_key st k mh).1).selected = st.selected)
  ∧ (k = .space → ((handle_key st k mh).1).current = st.current
       ∧ (st.current < (PARAM_ORDER.length : Int) →
            ((handle_key st k mh).1).selected (PARAM_ORDER.getD st.current.toNat "")
              = ! st.selected (PARAM_ORDER.getD st.current.toNat "")
          ∧ ∀ key2, key2 ≠ PARAM_ORDER.getD st.current.toNat "" →
              ((handle_key st k mh).1).selected key2 = st.selected key2))
  ∧ (∀ key2, ((handle_key ((handle_key st .space mh).1) .space mh).1).selected key2
       = st.selected key2) := by
  have hdouble : ∀ key2,
      ((handle_key ((handle_key st .space mh).1) .space mh).1).selected key2
        = st.selected key2 := by
    intro key2
    by_cases h : st.current < (PARAM_ORDER.length : Int)
    · by_cases hk : key2 = PARAM_ORDER.getD st.current.toNat "" <;>
        rw [List.getD_eq_getElem?_getD] at hk <;>
        simp [handle_key, h, hk]
    · simp [handle_key, h]
  refine ⟨fun cr => rfl, ?_, ?_, ?_, ?_, hdouble⟩
  · cases k <;> simp [handle_key]
    · omega
    · omega
    · by_cases h : st.current < (PARAM_ORDER.length : Int) <;>
        simp [h, h0, hN]
    · by_cases h : st.current = (PARAM_ORDER.length : Int) <;>
        simp [h, h0, hN]
    · exact ⟨h0, hN⟩
    · exact ⟨h0, hN⟩
  · intro hk; subst hk; simp [handle_key]
  · intro hk; subst hk; simp [handle_key]
  · intro hk; subst hk
    by_cases h : st.current < (PARAM_ORDER.length : Int)
    · refine ⟨by simp [handle_key, h], fun _ => ⟨by simp [handle_key, h], ?_⟩⟩
      intro key2 hk2
      rw [List.getD_eq_getElem?_getD] at hk2
      simp [handle_key, h, hk2]
    · exact ⟨by simp [handle_key, h], fun hc => absurd hc h⟩

/-- Witness for C10: from focus 2 with everything selected, pressing space
keeps the focus at 2. -/
theorem C10_menu_invariants_witness :
    ((handle_key ⟨"1-12", fun _ => true, 2, 0⟩ .space 10).1).current = 2 :=
  ((C10_menu_invariants ⟨"1-12", fun _ => true, 2, 0⟩ .space 10
      (by decide) (by decide)).2.2.2.2.1 rfl).1

end KernelConfig
